import Mathlib

/-!
# OpenBAO unseal operator: reconciliation logic

A shallow embedding of `openbao-unseal-operator.go`.  The pure classifiers
(`isOpenBAOPod`, `isAlreadyUnsealed`, `isPodReady`, `findOpenBAOContainer`) are
plain functions on a `Pod` record.  The stateful part (`Reconcile`, `unsealPod`,
`getUnsealKey`, `execInPod`, `markAsUnsealed`) is written in explicit
state-passing style over a `World` that holds the object store, the secrets,
fault oracles for the external collaborators and the trace of collaborator
calls made so far.
-/

set_option autoImplicit false

namespace OpenBAO

/-! ## Data model -/

/-- A Go `map[string]string`: `none` is the nil map, `some l` a non-nil map
given as an association list (the first binding of a key is the live one). -/
abbrev GoMap := Option (List (String × String))

/-- Reading `m[k]` with the comma-ok idiom: `none` when the key is absent (a
nil map has no keys). -/
def GoMap.get? (m : GoMap) (k : String) : Option String :=
  match m with
  | none => none
  | some l => l.lookup k

/-- The assignment `m[k] = v` on a non-nil map. -/
def mapSet (l : List (String × String)) (k v : String) : List (String × String) :=
  (k, v) :: l.filter (fun e => e.1 != k)

structure Container where
  Name : String
deriving DecidableEq, Repr

structure PodCondition where
  CondType : String
  Status : String
deriving DecidableEq, Repr

structure PodSpec where
  Containers : List Container
deriving DecidableEq, Repr

structure PodStatus where
  Conditions : List PodCondition
deriving DecidableEq, Repr

structure Pod where
  Namespace : String
  Name : String
  Labels : GoMap
  Annotations : GoMap
  Spec : PodSpec
  Status : PodStatus
deriving DecidableEq, Repr

structure Secret where
  Namespace : String
  Name : String
  Data : GoMap
deriving DecidableEq, Repr

structure NamespacedName where
  Namespace : String
  Name : String
deriving DecidableEq, Repr

/-- The `ctrl.Request` of the source carries only the namespaced name. -/
abbrev Request := NamespacedName

/-- The `ctrl.Result` record; `RequeueAfter` is a `time.Duration` in nanoseconds. -/
structure Result where
  Requeue : Bool
  RequeueAfter : Nat
deriving DecidableEq, Repr

/-- The value of `time.Second`, in nanoseconds. -/
def Second : Nat := 1000000000

/-- The zero value `ctrl.Result{}`. -/
def Result.empty : Result := ⟨false, 0⟩

/-- Reason carried by an API status error. -/
inductive StatusReason where
  | NotFound
  | Conflict
  | Other
deriving DecidableEq, Repr

/-- Go error values: an API status error, a plain error (`fmt.Errorf` without
`%w`, transport failures), or an error wrapping another one with `%w`. -/
inductive Err where
  | status (reason : StatusReason) (msg : String)
  | plain (msg : String)
  | wrap (msg : String) (inner : Err)
deriving DecidableEq, Repr

/-- The test `apierrors.IsNotFound`, which looks through `%w` wrappers. -/
def IsNotFound : Err → Bool
  | .status r _ => r == StatusReason.NotFound
  | .plain _ => false
  | .wrap _ inner => IsNotFound inner

/-- The helper `client.IgnoreNotFound`: a NotFound error becomes the nil error. -/
def IgnoreNotFound (err : Err) : Option Err :=
  if IsNotFound err then none else some err

/-! ## Constants -/

def OpenBAOLabel : String := "app.kubernetes.io/name"
def OpenBAOValue : String := "openbao"
def UnsealedAnnotation : String := "openbao.io/unsealed"
def DefaultBAOPort : Nat := 8200

/-- The value of `corev1.PodReady`. -/
def PodReady : String := "Ready"
/-- The value of `corev1.ConditionTrue`. -/
def ConditionTrue : String := "True"

/-! ## Pure classifiers -/

def isOpenBAOPod (pod : Pod) : Bool :=
  match pod.Labels with
  | none => false
  | some labels =>
    if labels.lookup OpenBAOLabel == some OpenBAOValue then true
    else pod.Spec.Containers.any (fun container => container.Name == "openbao" || container.Name == "bao")

def isAlreadyUnsealed (pod : Pod) : Bool :=
  match pod.Annotations with
  | none => false
  | some annotations => (annotations.lookup UnsealedAnnotation).isSome

def isPodReady (pod : Pod) : Bool :=
  pod.Status.Conditions.any (fun condition =>
    condition.CondType == PodReady && condition.Status == ConditionTrue)

def findOpenBAOContainer (pod : Pod) : String :=
  match pod.Spec.Containers.find? (fun container => container.Name == "openbao" || container.Name == "bao") with
  | some container => container.Name
  | none =>
    match pod.Spec.Containers with
    | first :: _ => first.Name
    | [] => ""

/-- Target membership as the specification words it, to be compared with
`isOpenBAOPod`: the pod carries the label `app.kubernetes.io/name` with value
`openbao`, or some declared container is named `openbao` or `bao`. -/
def IsTargetMember (pod : Pod) : Bool :=
  (pod.Labels.get? OpenBAOLabel == some OpenBAOValue) ||
    pod.Spec.Containers.any (fun container => container.Name == "openbao" || container.Name == "bao")

/-! ## External collaborators -/

/-- Arguments of one remote exec: namespace, pod name, container and command. -/
structure ExecCall where
  Namespace : String
  PodName : String
  Container : String
  Command : List String
deriving DecidableEq, Repr

/-- Outcome of a read from the object store. -/
inductive GetResult (α : Type) where
  | ok (obj : α)
  | error (err : Err)
deriving DecidableEq, Repr

/-- One collaborator call together with its outcome (`none` is the nil error). -/
inductive Call where
  | getPod (key : NamespacedName) (res : GetResult Pod)
  | getSecret (key : NamespacedName) (res : GetResult Secret)
  | exec (call : ExecCall) (res : Option Err)
  | update (pod : Pod) (res : Option Err)
deriving DecidableEq, Repr

/-- The cluster as seen by the operator: the stored pods and secrets, fault
oracles deciding which collaborator calls fail, the clock reading formatted as
RFC3339, and the trace of collaborator calls made so far. -/
structure World where
  pods : List Pod
  secrets : List Secret
  podGetFault : NamespacedName → Option Err
  secretGetFault : NamespacedName → Option Err
  newExecutorFault : ExecCall → Option Err
  streamFault : ExecCall → Option Err
  updateFault : Pod → Option Err
  now : String
  trace : List Call

/-- What a `Get` of a pod answers in world `w`. -/
def World.lookupPod (w : World) (key : NamespacedName) : GetResult Pod :=
  match w.podGetFault key with
  | some err => .error err
  | none =>
    match w.pods.find? (fun p => p.Namespace == key.Namespace && p.Name == key.Name) with
    | some p => .ok p
    | none => .error (.status .NotFound "pod not found")

/-- What a `Get` of a secret answers in world `w`. -/
def World.lookupSecret (w : World) (key : NamespacedName) : GetResult Secret :=
  match w.secretGetFault key with
  | some err => .error err
  | none =>
    match w.secrets.find? (fun s => s.Namespace == key.Namespace && s.Name == key.Name) with
    | some s => .ok s
    | none => .error (.status .NotFound "secret not found")

/-- What an `Update` of a pod answers in world `w`. -/
def World.checkUpdate (w : World) (pod : Pod) : Option Err :=
  match w.updateFault pod with
  | some err => some err
  | none =>
    if w.pods.any (fun p => p.Namespace == pod.Namespace && p.Name == pod.Name) then none
    else some (.status .NotFound "pod not found")

/-- What a remote exec answers in world `w`: building the SPDY executor may
fail, and otherwise the answer is that of the stream. -/
def World.execResult (w : World) (call : ExecCall) : Option Err :=
  match w.newExecutorFault call with
  | some err => some err
  | none => w.streamFault call

/-- Appends one collaborator call to the trace. -/
def World.record (w : World) (c : Call) : World :=
  { w with trace := w.trace ++ [c] }

/-- The client call `r.Get(ctx, key, &pod)`. -/
def GetPod (w : World) (key : NamespacedName) : GetResult Pod × World :=
  let res := w.lookupPod key
  (res, w.record (Call.getPod key res))

/-- The client call `r.Get(ctx, key, &secret)`. -/
def GetSecret (w : World) (key : NamespacedName) : GetResult Secret × World :=
  let res := w.lookupSecret key
  (res, w.record (Call.getSecret key res))

/-- The client call `r.Update(ctx, pod)`: on success the stored object with the
same namespace and name is replaced. -/
def Update (w : World) (pod : Pod) : Option Err × World :=
  let res := w.checkUpdate pod
  let pods :=
    match res with
    | none => w.pods.map (fun p =>
        if p.Namespace == pod.Namespace && p.Name == pod.Name then pod else p)
    | some _ => w.pods
  (res, { w with pods := pods }.record (Call.update pod res))

/-! ## The operator -/

def getUnsealKey (w : World) (namespace_ : String) : GetResult String × World :=
  let secretName : NamespacedName := ⟨namespace_, "openbao-unseal-key"⟩
  match GetSecret w secretName with
  | (.error err, w1) => (.error err, w1)
  | (.ok secret, w1) =>
    match secret.Data.get? "unseal-key" with
    | none => (.error (.plain "unseal-key not found in secret"), w1)
    | some unsealKey => (.ok unsealKey, w1)

def execInPod (w : World) (namespace_ podName containerName : String) (cmd : List String) :
    Option Err × World :=
  let call : ExecCall := ⟨namespace_, podName, containerName, cmd⟩
  let res := w.execResult call
  (res, w.record (Call.exec call res))

def unsealPod (w : World) (pod : Pod) : Option Err × World :=
  match getUnsealKey w pod.Namespace with
  | (.error err, w1) => (some (.wrap "failed to get unseal key" err), w1)
  | (.ok unsealKey, w1) =>
    let containerName := findOpenBAOContainer pod
    if containerName == "" then
      (some (.plain "no OpenBAO container found in pod"), w1)
    else
      let cmd := ["bao", "unseal", unsealKey]
      match execInPod w1 pod.Namespace pod.Name containerName cmd with
      | (some err, w2) => (some (.wrap "failed to execute unseal command" err), w2)
      | (none, w2) => (none, w2)

/-- The in-place mutation done by `markAsUnsealed` before it calls `Update`:
a nil annotation map is replaced by an empty one, then the marker is set. -/
def annotateUnsealed (pod : Pod) (timestamp : String) : Pod :=
  let annotations :=
    match pod.Annotations with
    | none => []
    | some a => a
  { pod with Annotations := some (mapSet annotations UnsealedAnnotation timestamp) }

def markAsUnsealed (w : World) (pod : Pod) : Option Err × World :=
  Update w (annotateUnsealed pod w.now)

/-- What one run of `Reconcile` hands back: the result, the error (`none` is
nil) and the world it leaves. -/
structure Outcome where
  result : Result
  err : Option Err
  world : World

def Reconcile (w : World) (req : Request) : Outcome :=
  match GetPod w req with
  | (.error err, w1) => ⟨Result.empty, IgnoreNotFound err, w1⟩
  | (.ok pod, w1) =>
    if !isOpenBAOPod pod then ⟨Result.empty, none, w1⟩
    else if isAlreadyUnsealed pod then ⟨Result.empty, none, w1⟩
    else if !isPodReady pod then ⟨⟨false, Second * 10⟩, none, w1⟩
    else
      match unsealPod w1 pod with
      | (some err, w2) => ⟨⟨false, Second * 30⟩, some err, w2⟩
      | (none, w2) =>
        match markAsUnsealed w2 pod with
        | (some err, w3) => ⟨Result.empty, some err, w3⟩
        | (none, w3) => ⟨Result.empty, none, w3⟩

/-! ## Event filter of `SetupWithManager` -/

/-- A `client.Object` delivered by the watch: a pod, or an object of another
kind on which the type assertion to a pod fails. -/
inductive ClientObject where
  | pod (p : Pod)
  | other
deriving DecidableEq, Repr

structure CreateEvent where
  Object : ClientObject
deriving DecidableEq, Repr

structure UpdateEvent where
  ObjectOld : ClientObject
  ObjectNew : ClientObject
deriving DecidableEq, Repr

structure DeleteEvent where
  Object : ClientObject
deriving DecidableEq, Repr

def CreateFunc (e : CreateEvent) : Bool :=
  match e.Object with
  | .pod pod => isOpenBAOPod pod
  | .other => false

def UpdateFunc (e : UpdateEvent) : Bool :=
  match e.ObjectNew with
  | .pod pod => isOpenBAOPod pod && !isAlreadyUnsealed pod
  | .other => false

def DeleteFunc (_e : DeleteEvent) : Bool := false

/-! ## Observations on a run -/

/-- The collaborator calls made between world `w` and the later world `w2`. -/
def callsBetween (w w2 : World) : List Call := w2.trace.drop w.trace.length

/-- The collaborator calls made by one run of `Reconcile`. -/
def runCalls (w : World) (req : Request) : List Call :=
  callsBetween w (Reconcile w req).world

def Call.isExec : Call → Bool
  | .exec _ _ => true
  | _ => false

def Call.isUpdate : Call → Bool
  | .update _ _ => true
  | _ => false

def Call.isGetSecret : Call → Bool
  | .getSecret _ _ => true
  | _ => false

def execCount (calls : List Call) : Nat := calls.countP Call.isExec

def updateCount (calls : List Call) : Nat := calls.countP Call.isUpdate

/-- A call that came back with an error; a secret read that succeeded but whose
secret lacks the field `unseal-key` counts as a failed credential fetch. -/
def Call.failed : Call → Bool
  | .getPod _ (.error _) => true
  | .getPod _ (.ok _) => false
  | .getSecret _ (.error _) => true
  | .getSecret _ (.ok s) => (s.Data.get? "unseal-key").isNone
  | .exec _ res => res.isSome
  | .update _ res => res.isSome

/-- The read of the pod that came back with a NotFound error. -/
def Call.isPodNotFound : Call → Bool
  | .getPod _ (.error e) => IsNotFound e
  | _ => false

/-- A run of `Reconcile` that takes no action: no remote exec, no Update, the
stored pods untouched, the empty result (no requeue) and no error. -/
def TakesNoAction (w : World) (req : Request) : Prop :=
  execCount (runCalls w req) = 0 ∧
  updateCount (runCalls w req) = 0 ∧
  (Reconcile w req).world.pods = w.pods ∧
  (Reconcile w req).result = Result.empty ∧
  (Reconcile w req).err = none

/-! ## Concrete inputs -/

/-- A world without faults holding the given pods and secrets, with an empty trace. -/
def quietWorld (pods : List Pod) (secrets : List Secret) : World :=
  ⟨pods, secrets, fun _ => none, fun _ => none, fun _ => none, fun _ => none, fun _ => none,
    "2024-01-01T00:00:00Z", []⟩

/-- The secret `ns/openbao-unseal-key` with field `unseal-key` set to `abc123`. -/
def secretNs : Secret := ⟨"ns", "openbao-unseal-key", some [("unseal-key", "abc123")]⟩

/-- The request key `ns/pod-a`. -/
def reqA : Request := ⟨"ns", "pod-a"⟩

/-- The pod `ns/pod-a` of the end-to-end scenario: labelled, unmarked, ready,
one container `openbao`. -/
def podA : Pod :=
  ⟨"ns", "pod-a", some [("app.kubernetes.io/name", "openbao")], none,
    ⟨[⟨"openbao"⟩]⟩, ⟨[⟨"Ready", "True"⟩]⟩⟩

/-- A pod with a nil label map and a container named `openbao`. -/
def podNoLabels : Pod :=
  ⟨"ns", "pod-b", none, none, ⟨[⟨"openbao"⟩]⟩, ⟨[⟨"Ready", "True"⟩]⟩⟩

/-- The same pod with an empty, non-nil label map. -/
def podEmptyLabels : Pod :=
  ⟨"ns", "pod-b", some [], none, ⟨[⟨"openbao"⟩]⟩, ⟨[⟨"Ready", "True"⟩]⟩⟩

/-- The request key `ns/pod-b`. -/
def reqB : Request := ⟨"ns", "pod-b"⟩

/-- A pod with a nil label map, a container named `openbao` and a Ready
condition with status False. -/
def podNoLabelsNotReady : Pod :=
  ⟨"ns", "pod-b", none, none, ⟨[⟨"openbao"⟩]⟩, ⟨[⟨"Ready", "False"⟩]⟩⟩

/-- A pod whose only container has the empty name. -/
def podUnnamedContainer : Pod :=
  ⟨"ns", "pod-c", some [], none, ⟨[⟨""⟩]⟩, ⟨[]⟩⟩

/-- A pod with containers `sidecar` and `bao`. -/
def podSidecarBao : Pod :=
  ⟨"ns", "pod-d", some [], none, ⟨[⟨"sidecar"⟩, ⟨"bao"⟩]⟩, ⟨[]⟩⟩

/-- The labelled pod `ns/pod-a` carrying the marker with an empty value. -/
def podMarked : Pod :=
  ⟨"ns", "pod-a", some [("app.kubernetes.io/name", "openbao")],
    some [("openbao.io/unsealed", "")], ⟨[⟨"openbao"⟩]⟩, ⟨[⟨"Ready", "True"⟩]⟩⟩

/-- The labelled pod `ns/pod-a` whose Ready condition is False. -/
def podNotReady : Pod :=
  ⟨"ns", "pod-a", some [("app.kubernetes.io/name", "openbao")], none,
    ⟨[⟨"openbao"⟩]⟩, ⟨[⟨"Ready", "False"⟩]⟩⟩

/-- The labelled, ready, unmarked pod `ns/pod-a` declaring no container. -/
def podNoContainers : Pod :=
  ⟨"ns", "pod-a", some [("app.kubernetes.io/name", "openbao")], none,
    ⟨[]⟩, ⟨[⟨"Ready", "True"⟩]⟩⟩

/-- The pod `ns/pod-a` of the end-to-end scenario with an annotation of another owner. -/
def podAnnotated : Pod :=
  ⟨"ns", "pod-a", some [("app.kubernetes.io/name", "openbao")], some [("team", "storage")],
    ⟨[⟨"openbao"⟩]⟩, ⟨[⟨"Ready", "True"⟩]⟩⟩

/-- A world holding `podA` and its secret in which every Update is answered
with a Conflict. -/
def conflictWorld : World :=
  ⟨[podA], [secretNs], fun _ => none, fun _ => none, fun _ => none, fun _ => none,
    fun _ => some (.status .Conflict "the object has been modified"),
    "2024-01-01T00:00:00Z", []⟩

/-- A ready pod `ns/pod-g` with an empty label map and a single container `sidecar`. -/
def podSidecarOnly : Pod :=
  ⟨"ns", "pod-g", some [], none, ⟨[⟨"sidecar"⟩]⟩, ⟨[⟨"Ready", "True"⟩]⟩⟩

/-! ## Lemmas on the map model -/

theorem lookup_filter_ne (l : List (String × String)) (k k2 : String) (h : k2 ≠ k) :
    (l.filter (fun e => e.1 != k)).lookup k2 = l.lookup k2 := by
  induction l with
  | nil => rfl
  | cons e rest ih =>
    obtain ⟨a, b⟩ := e
    by_cases hak : a = k
    · subst hak
      have h2 : (k2 == a) = false := by simpa using h
      simp [List.filter, List.lookup, h2, ih]
    · have h1 : (a != k) = true := by simpa using hak
      simp only [List.filter, h1, List.lookup]
      rw [ih]

theorem lookup_mapSet_self (l : List (String × String)) (k v : String) :
    (mapSet l k v).lookup k = some v := by
  simp [mapSet, List.lookup]

theorem lookup_mapSet_ne (l : List (String × String)) (k v k2 : String) (h : k2 ≠ k) :
    (mapSet l k v).lookup k2 = l.lookup k2 := by
  have h2 : (k2 == k) = false := by simpa using h
  simp only [mapSet, List.lookup, h2]
  exact lookup_filter_ne l k k2 h

/-! ## Lemmas on the classifiers -/

theorem isAlreadyUnsealed_of_get (pod : Pod) (v : String)
    (h : pod.Annotations.get? UnsealedAnnotation = some v) : isAlreadyUnsealed pod = true := by
  unfold isAlreadyUnsealed
  cases hA : pod.Annotations with
  | none => simp [hA, GoMap.get?] at h
  | some a =>
    simp only [hA, GoMap.get?] at h
    simp [h]

/-- On a pod whose label map is not nil, `isOpenBAOPod` decides target
membership as the specification words it. -/
theorem isOpenBAOPod_of_labelled (pod : Pod) (hl : pod.Labels ≠ none) :
    isOpenBAOPod pod = IsTargetMember pod := by
  unfold isOpenBAOPod IsTargetMember
  cases hL : pod.Labels with
  | none => exact absurd hL hl
  | some labels =>
    simp only [GoMap.get?]
    cases hlab : (labels.lookup OpenBAOLabel == some OpenBAOValue) <;> simp

theorem isPodReady_eq_false (pod : Pod)
    (h : ∀ c ∈ pod.Status.Conditions, ¬ (c.CondType = PodReady ∧ c.Status = ConditionTrue)) :
    isPodReady pod = false := by
  unfold isPodReady
  rw [List.any_eq_false]
  intro c hc
  have := h c hc
  simpa using this

/-! ## Lemmas on the trace -/

@[simp] theorem record_trace (w : World) (c : Call) : (w.record c).trace = w.trace ++ [c] := rfl

@[simp] theorem record_pods (w : World) (c : Call) : (w.record c).pods = w.pods := rfl

@[simp] theorem record_now (w : World) (c : Call) : (w.record c).now = w.now := rfl

@[simp] theorem record_lookupPod (w : World) (c : Call) (key : NamespacedName) :
    (w.record c).lookupPod key = w.lookupPod key := rfl

@[simp] theorem record_lookupSecret (w : World) (c : Call) (key : NamespacedName) :
    (w.record c).lookupSecret key = w.lookupSecret key := rfl

@[simp] theorem record_execResult (w : World) (c : Call) (call : ExecCall) :
    (w.record c).execResult call = w.execResult call := rfl

@[simp] theorem record_checkUpdate (w : World) (c : Call) (pod : Pod) :
    (w.record c).checkUpdate pod = w.checkUpdate pod := rfl

theorem callsBetween_append (w w2 : World) (calls : List Call)
    (h : w2.trace = w.trace ++ calls) : callsBetween w w2 = calls := by
  simp [callsBetween, h]

/-! ## The paths through `Reconcile` -/

theorem reconcile_get_error (w : World) (req : Request) (e : Err)
    (hget : w.lookupPod req = .error e) :
    Reconcile w req = ⟨Result.empty, IgnoreNotFound e, w.record (.getPod req (.error e))⟩ := by
  simp [Reconcile, GetPod, hget]

theorem reconcile_not_target (w : World) (req : Request) (pod : Pod)
    (hget : w.lookupPod req = .ok pod) (ht : isOpenBAOPod pod = false) :
    Reconcile w req = ⟨Result.empty, none, w.record (.getPod req (.ok pod))⟩ := by
  simp [Reconcile, GetPod, hget, ht]

theorem reconcile_marked (w : World) (req : Request) (pod : Pod)
    (hget : w.lookupPod req = .ok pod) (hm : isAlreadyUnsealed pod = true) :
    Reconcile w req = ⟨Result.empty, none, w.record (.getPod req (.ok pod))⟩ := by
  simp [Reconcile, GetPod, hget, hm]

theorem reconcile_not_ready (w : World) (req : Request) (pod : Pod)
    (hget : w.lookupPod req = .ok pod) (ht : isOpenBAOPod pod = true)
    (hm : isAlreadyUnsealed pod = false) (hr : isPodReady pod = false) :
    Reconcile w req = ⟨⟨false, Second * 10⟩, none, w.record (.getPod req (.ok pod))⟩ := by
  simp [Reconcile, GetPod, hget, ht, hm, hr]

theorem reconcile_secret_error (w : World) (req : Request) (pod : Pod) (e : Err)
    (hget : w.lookupPod req = .ok pod) (ht : isOpenBAOPod pod = true)
    (hm : isAlreadyUnsealed pod = false) (hr : isPodReady pod = true)
    (hs : w.lookupSecret ⟨pod.Namespace, "openbao-unseal-key"⟩ = .error e) :
    Reconcile w req = ⟨⟨false, Second * 30⟩, some (.wrap "failed to get unseal key" e),
      (w.record (.getPod req (.ok pod))).record
        (.getSecret ⟨pod.Namespace, "openbao-unseal-key"⟩ (.error e))⟩ := by
  simp [Reconcile, GetPod, hget, ht, hm, hr, unsealPod, getUnsealKey, GetSecret, hs]

theorem reconcile_field_missing (w : World) (req : Request) (pod : Pod) (s : Secret)
    (hget : w.lookupPod req = .ok pod) (ht : isOpenBAOPod pod = true)
    (hm : isAlreadyUnsealed pod = false) (hr : isPodReady pod = true)
    (hs : w.lookupSecret ⟨pod.Namespace, "openbao-unseal-key"⟩ = .ok s)
    (hk : s.Data.get? "unseal-key" = none) :
    Reconcile w req = ⟨⟨false, Second * 30⟩,
      some (.wrap "failed to get unseal key" (.plain "unseal-key not found in secret")),
      (w.record (.getPod req (.ok pod))).record
        (.getSecret ⟨pod.Namespace, "openbao-unseal-key"⟩ (.ok s))⟩ := by
  simp [Reconcile, GetPod, hget, ht, hm, hr, unsealPod, getUnsealKey, GetSecret, hs, hk]

theorem reconcile_no_container (w : World) (req : Request) (pod : Pod) (s : Secret) (k : String)
    (hget : w.lookupPod req = .ok pod) (ht : isOpenBAOPod pod = true)
    (hm : isAlreadyUnsealed pod = false) (hr : isPodReady pod = true)
    (hs : w.lookupSecret ⟨pod.Namespace, "openbao-unseal-key"⟩ = .ok s)
    (hk : s.Data.get? "unseal-key" = some k)
    (hc : findOpenBAOContainer pod = "") :
    Reconcile w req = ⟨⟨false, Second * 30⟩, some (.plain "no OpenBAO container found in pod"),
      (w.record (.getPod req (.ok pod))).record
        (.getSecret ⟨pod.Namespace, "openbao-unseal-key"⟩ (.ok s))⟩ := by
  simp [Reconcile, GetPod, hget, ht, hm, hr, unsealPod, getUnsealKey, GetSecret, hs, hk, hc]

theorem reconcile_exec_error (w : World) (req : Request) (pod : Pod) (s : Secret) (k : String)
    (e : Err)
    (hget : w.lookupPod req = .ok pod) (ht : isOpenBAOPod pod = true)
    (hm : isAlreadyUnsealed pod = false) (hr : isPodReady pod = true)
    (hs : w.lookupSecret ⟨pod.Namespace, "openbao-unseal-key"⟩ = .ok s)
    (hk : s.Data.get? "unseal-key" = some k)
    (hc : findOpenBAOContainer pod ≠ "")
    (hx : w.execResult ⟨pod.Namespace, pod.Name, findOpenBAOContainer pod, ["bao", "unseal", k]⟩
      = some e) :
    Reconcile w req = ⟨⟨false, Second * 30⟩, some (.wrap "failed to execute unseal command" e),
      ((w.record (.getPod req (.ok pod))).record
        (.getSecret ⟨pod.Namespace, "openbao-unseal-key"⟩ (.ok s))).record
        (.exec ⟨pod.Namespace, pod.Name, findOpenBAOContainer pod, ["bao", "unseal", k]⟩
          (some e))⟩ := by
  simp [Reconcile, GetPod, hget, ht, hm, hr, unsealPod, getUnsealKey, GetSecret, hs, hk, hc,
    execInPod, hx]

theorem reconcile_exec_ok (w : World) (req : Request) (pod : Pod) (s : Secret) (k : String)
    (hget : w.lookupPod req = .ok pod) (ht : isOpenBAOPod pod = true)
    (hm : isAlreadyUnsealed pod = false) (hr : isPodReady pod = true)
    (hs : w.lookupSecret ⟨pod.Namespace, "openbao-unseal-key"⟩ = .ok s)
    (hk : s.Data.get? "unseal-key" = some k)
    (hc : findOpenBAOContainer pod ≠ "")
    (hx : w.execResult ⟨pod.Namespace, pod.Name, findOpenBAOContainer pod, ["bao", "unseal", k]⟩
      = none) :
    Reconcile w req = ⟨Result.empty, w.checkUpdate (annotateUnsealed pod w.now),
      (Update
        (((w.record (.getPod req (.ok pod))).record
          (.getSecret ⟨pod.Namespace, "openbao-unseal-key"⟩ (.ok s))).record
          (.exec ⟨pod.Namespace, pod.Name, findOpenBAOContainer pod, ["bao", "unseal", k]⟩ none))
        (annotateUnsealed pod w.now)).2⟩ := by
  simp only [Reconcile, GetPod, hget, ht, hm, hr, unsealPod, getUnsealKey, GetSecret, hs, hk,
    execInPod, hx, markAsUnsealed, record_lookupSecret, record_execResult, record_now]
  have hc2 : (findOpenBAOContainer pod == "") = false := by simpa using hc
  simp only [hc2, Bool.not_true, Bool.false_eq_true, if_false, Bool.not_false, if_true]
  cases hu : w.checkUpdate (annotateUnsealed pod w.now) <;>
    simp [Update, hu]

/-! ## Claims on the classifiers -/

/-- C3 (defect in the code): a pod whose label map is nil and whose only
container is named `openbao` is rejected by `isOpenBAOPod`, because the nil
check returns before the container names are examined; the same pod with an
empty, non-nil label map is accepted, and `findOpenBAOContainer` finds the
container in both. -/
theorem C3_nil_labels_hide_container :
    podNoLabels.Labels = none ∧
    podNoLabels.Spec.Containers = [⟨"openbao"⟩] ∧
    isOpenBAOPod podNoLabels = false ∧
    isOpenBAOPod podEmptyLabels = true ∧
    findOpenBAOContainer podNoLabels = "openbao" := by
  decide

/-- C5 (as stated, refuted): a pod that declares one container, whose name is
the empty string, makes `findOpenBAOContainer` return the empty string although
the pod does not declare zero containers. -/
theorem C5_counterexample_unnamed_container :
    ¬ (findOpenBAOContainer podUnnamedContainer = "" ↔
        podUnnamedContainer.Spec.Containers = []) := by
  decide

/-- C5 (amended): `findOpenBAOContainer` returns the name of the first declared
container named `openbao` or `bao`; when no container has such a name it returns
the name of the first declared container; it returns the empty string exactly
when the pod declares zero containers or no container is recognised and the
first declared container has the empty name; hence, for a pod all of whose
container names are non-empty, exactly when the pod declares zero containers. -/
theorem C5_findOpenBAOContainer_selection (pod : Pod) :
    (∀ (before : List Container) (c : Container) (after : List Container),
      pod.Spec.Containers = before ++ c :: after →
      (∀ x ∈ before, x.Name ≠ "openbao" ∧ x.Name ≠ "bao") →
      (c.Name = "openbao" ∨ c.Name = "bao") →
      findOpenBAOContainer pod = c.Name) ∧
    (∀ (first : Container) (rest : List Container),
      pod.Spec.Containers = first :: rest →
      (∀ x ∈ pod.Spec.Containers, x.Name ≠ "openbao" ∧ x.Name ≠ "bao") →
      findOpenBAOContainer pod = first.Name) ∧
    (findOpenBAOContainer pod = "" ↔
      (pod.Spec.Containers = [] ∨
        ∃ (first : Container) (rest : List Container),
          pod.Spec.Containers = first :: rest ∧ first.Name = "" ∧
          ∀ x ∈ pod.Spec.Containers, x.Name ≠ "openbao" ∧ x.Name ≠ "bao")) ∧
    ((∀ x ∈ pod.Spec.Containers, x.Name ≠ "") →
      (findOpenBAOContainer pod = "" ↔ pod.Spec.Containers = [])) := by
  have hnone : ∀ l : List Container, (∀ x ∈ l, x.Name ≠ "openbao" ∧ x.Name ≠ "bao") →
      l.find? (fun container => container.Name == "openbao" || container.Name == "bao")
        = none := by
    intro l hl
    rw [List.find?_eq_none]
    intro x hx
    have := hl x hx
    simp [this.1, this.2]
  have hsome : ∀ c : Container,
      pod.Spec.Containers.find?
        (fun container => container.Name == "openbao" || container.Name == "bao") = some c →
      (c.Name = "openbao" ∨ c.Name = "bao") := by
    intro c hc
    have := List.find?_some hc
    simpa using this
  have hfound : ∀ l : List Container,
      l.find? (fun container => container.Name == "openbao" || container.Name == "bao") = none →
      ∀ x ∈ l, x.Name ≠ "openbao" ∧ x.Name ≠ "bao" := by
    intro l hl x hx
    rw [List.find?_eq_none] at hl
    have := hl x hx
    simpa using this
  have part1 : ∀ (before : List Container) (c : Container) (after : List Container),
      pod.Spec.Containers = before ++ c :: after →
      (∀ x ∈ before, x.Name ≠ "openbao" ∧ x.Name ≠ "bao") →
      (c.Name = "openbao" ∨ c.Name = "bao") →
      findOpenBAOContainer pod = c.Name := by
    intro before c after hsplit hb hc
    have hp : (c.Name == "openbao" || c.Name == "bao") = true := by
      rcases hc with h | h <;> simp [h]
    unfold findOpenBAOContainer
    rw [hsplit, List.find?_append, hnone before hb]
    simp [List.find?, hp]
  have part2 : ∀ (first : Container) (rest : List Container),
      pod.Spec.Containers = first :: rest →
      (∀ x ∈ pod.Spec.Containers, x.Name ≠ "openbao" ∧ x.Name ≠ "bao") →
      findOpenBAOContainer pod = first.Name := by
    intro first rest hsplit hall
    unfold findOpenBAOContainer
    rw [hnone _ hall, hsplit]
  have part3 : findOpenBAOContainer pod = "" ↔
      (pod.Spec.Containers = [] ∨
        ∃ (first : Container) (rest : List Container),
          pod.Spec.Containers = first :: rest ∧ first.Name = "" ∧
          ∀ x ∈ pod.Spec.Containers, x.Name ≠ "openbao" ∧ x.Name ≠ "bao") := by
    constructor
    · intro h
      cases hf : pod.Spec.Containers.find?
          (fun container => container.Name == "openbao" || container.Name == "bao") with
      | some c =>
        exfalso
        have hname := hsome c hf
        have hres : findOpenBAOContainer pod = c.Name := by
          unfold findOpenBAOContainer
          rw [hf]
        rw [hres] at h
        rcases hname with h1 | h1 <;> rw [h1] at h <;> exact absurd h (by decide)
      | none =>
        cases hl : pod.Spec.Containers with
        | nil => exact Or.inl rfl
        | cons first rest =>
          right
          refine ⟨first, rest, rfl, ?_, ?_⟩
          · have hres := part2 first rest hl (hfound _ hf)
            rw [← hres]
            exact h
          · rw [← hl]
            exact hfound _ hf
    · rintro (h | ⟨first, rest, hsplit, hname, hall⟩)
      · unfold findOpenBAOContainer
        rw [h]
        rfl
      · rw [part2 first rest hsplit hall, hname]
  refine ⟨part1, part2, part3, ?_⟩
  intro hne
  rw [part3]
  constructor
  · rintro (h | ⟨first, rest, hsplit, hname, _⟩)
    · exact h
    · exact absurd hname (hne first (by rw [hsplit]; exact List.mem_cons_self _ _))
  · intro h
    exact Or.inl h

/-- C5 (amended), at the inputs named by the claim: `[sidecar, bao]` selects
`bao`, `[app]` selects `app`, and a pod without containers selects nothing. -/
theorem C5_findOpenBAOContainer_selection_witness :
    findOpenBAOContainer podSidecarBao = "bao" ∧
    findOpenBAOContainer ⟨"ns", "pod-e", some [], none, ⟨[⟨"app"⟩]⟩, ⟨[]⟩⟩ = "app" ∧
    (findOpenBAOContainer ⟨"ns", "pod-f", some [], none, ⟨[]⟩, ⟨[]⟩⟩ = "" ↔
      (⟨"ns", "pod-f", some [], none, ⟨[]⟩, ⟨[]⟩⟩ : Pod).Spec.Containers = []) :=
  ⟨(C5_findOpenBAOContainer_selection podSidecarBao).1 [⟨"sidecar"⟩] ⟨"bao"⟩ [] rfl
      (by decide) (by decide),
    (C5_findOpenBAOContainer_selection ⟨"ns", "pod-e", some [], none, ⟨[⟨"app"⟩]⟩, ⟨[]⟩⟩).2.1
      ⟨"app"⟩ [] rfl (by decide),
    (C5_findOpenBAOContainer_selection ⟨"ns", "pod-f", some [], none, ⟨[]⟩, ⟨[]⟩⟩).2.2.2
      (by decide)⟩

/-! ## Claims on `Reconcile` -/

/-- C1: when the object store returns a pod whose annotation map holds the key
`openbao.io/unsealed` with any value, `isAlreadyUnsealed` is true and the run
of `Reconcile` makes the single call that read the pod, hence no remote exec
and no Update, leaves the stored pods alone, and returns the empty result with
no error. -/
theorem C1_marked_pod_is_skipped (w : World) (req : Request) (pod : Pod) (v : String)
    (hget : w.lookupPod req = .ok pod)
    (hann : pod.Annotations.get? UnsealedAnnotation = some v) :
    isAlreadyUnsealed pod = true ∧
    runCalls w req = [Call.getPod req (.ok pod)] ∧
    execCount (runCalls w req) = 0 ∧
    updateCount (runCalls w req) = 0 ∧
    (Reconcile w req).world.pods = w.pods ∧
    (Reconcile w req).result = Result.empty ∧
    (Reconcile w req).result.Requeue = false ∧
    (Reconcile w req).result.RequeueAfter = 0 ∧
    (Reconcile w req).err = none := by
  have hm := isAlreadyUnsealed_of_get pod v hann
  have hrun := reconcile_marked w req pod hget hm
  have hcalls : runCalls w req = [Call.getPod req (.ok pod)] := by
    unfold runCalls
    rw [hrun]
    exact callsBetween_append _ _ _ rfl
  refine ⟨hm, hcalls, ?_, ?_, ?_, ?_, ?_, ?_, ?_⟩
  · rw [hcalls]; rfl
  · rw [hcalls]; rfl
  all_goals (rw [hrun]; try rfl)

/-- C1 at a concrete input: the labelled pod `ns/pod-a` whose marker has the
empty string as value. -/
theorem C1_marked_pod_is_skipped_witness :
    (quietWorld [podMarked] [secretNs]).lookupPod reqA = .ok podMarked ∧
    podMarked.Annotations.get? UnsealedAnnotation = some "" ∧
    isAlreadyUnsealed podMarked = true ∧
    execCount (runCalls (quietWorld [podMarked] [secretNs]) reqA) = 0 ∧
    updateCount (runCalls (quietWorld [podMarked] [secretNs]) reqA) = 0 ∧
    (Reconcile (quietWorld [podMarked] [secretNs]) reqA).result = Result.empty ∧
    (Reconcile (quietWorld [podMarked] [secretNs]) reqA).err = none :=
  have h := C1_marked_pod_is_skipped (quietWorld [podMarked] [secretNs]) reqA podMarked ""
    (by decide) (by decide)
  ⟨by decide, by decide, h.1, h.2.2.1, h.2.2.2.1, h.2.2.2.2.2.1, h.2.2.2.2.2.2.2.2⟩

/-- C6 (defect in the code): the pod `ns/pod-b` has a nil label map and a
container named `openbao`, so it is a target member; it carries no marker and
its only condition is Ready with status False.  `Reconcile` reads it and
returns the empty result, with no requeue delay, where a requeue after 10
seconds is due: `isOpenBAOPod` rejects the pod at its nil check. -/
theorem C6_nil_labels_skip_requeue :
    (quietWorld [podNoLabelsNotReady] [secretNs]).lookupPod reqB = .ok podNoLabelsNotReady ∧
    podNoLabelsNotReady.Labels = none ∧
    IsTargetMember podNoLabelsNotReady = true ∧
    isAlreadyUnsealed podNoLabelsNotReady = false ∧
    (∀ c ∈ podNoLabelsNotReady.Status.Conditions,
      ¬ (c.CondType = "Ready" ∧ c.Status = "True")) ∧
    isOpenBAOPod podNoLabelsNotReady = false ∧
    runCalls (quietWorld [podNoLabelsNotReady] [secretNs]) reqB
      = [Call.getPod reqB (.ok podNoLabelsNotReady)] ∧
    (Reconcile (quietWorld [podNoLabelsNotReady] [secretNs]) reqB).result = Result.empty ∧
    (Reconcile (quietWorld [podNoLabelsNotReady] [secretNs]) reqB).result.RequeueAfter = 0 ∧
    (Reconcile (quietWorld [podNoLabelsNotReady] [secretNs]) reqB).result.RequeueAfter
      ≠ 10 * Second ∧
    (Reconcile (quietWorld [podNoLabelsNotReady] [secretNs]) reqB).err = none := by
  decide

/-- Away from the nil label map the readiness gate works: for a pod that is a
target member with a non-nil label map, carries no marker and has no condition
of type Ready with status True, the run of `Reconcile` makes the single call
that read the pod, hence no secret read, no remote exec and no Update, and
returns a result asking for a requeue after 10 seconds (ten thousand million
nanoseconds) with no error. -/
theorem not_ready_requeues (w : World) (req : Request) (pod : Pod)
    (hget : w.lookupPod req = .ok pod)
    (htm : IsTargetMember pod = true)
    (hl : pod.Labels ≠ none)
    (hm : isAlreadyUnsealed pod = false)
    (hr : ∀ c ∈ pod.Status.Conditions, ¬ (c.CondType = "Ready" ∧ c.Status = "True")) :
    runCalls w req = [Call.getPod req (.ok pod)] ∧
    (runCalls w req).countP Call.isGetSecret = 0 ∧
    execCount (runCalls w req) = 0 ∧
    updateCount (runCalls w req) = 0 ∧
    (Reconcile w req).world.pods = w.pods ∧
    (Reconcile w req).result.RequeueAfter = 10 * Second ∧
    (Reconcile w req).result.RequeueAfter = 10000000000 ∧
    (Reconcile w req).err = none := by
  have ht : isOpenBAOPod pod = true := by rw [isOpenBAOPod_of_labelled pod hl]; exact htm
  have hnr := isPodReady_eq_false pod hr
  have hrun := reconcile_not_ready w req pod hget ht hm hnr
  have hcalls : runCalls w req = [Call.getPod req (.ok pod)] := by
    unfold runCalls
    rw [hrun]
    exact callsBetween_append _ _ _ rfl
  refine ⟨hcalls, ?_, ?_, ?_, ?_, ?_, ?_, ?_⟩
  · rw [hcalls]; rfl
  · rw [hcalls]; rfl
  · rw [hcalls]; rfl
  · rw [hrun]; rfl
  · rw [hrun]; exact Nat.mul_comm _ _
  · rw [hrun]; rfl
  · rw [hrun]

/-- The readiness gate at a concrete input: the labelled pod `ns/pod-a` whose
Ready condition has status False. -/
theorem not_ready_requeues_example :
    (quietWorld [podNotReady] [secretNs]).lookupPod reqA = .ok podNotReady ∧
    isOpenBAOPod podNotReady = true ∧
    isAlreadyUnsealed podNotReady = false ∧
    runCalls (quietWorld [podNotReady] [secretNs]) reqA = [Call.getPod reqA (.ok podNotReady)] ∧
    (Reconcile (quietWorld [podNotReady] [secretNs]) reqA).result.RequeueAfter = 10000000000 ∧
    (Reconcile (quietWorld [podNotReady] [secretNs]) reqA).err = none :=
  have h := not_ready_requeues (quietWorld [podNotReady] [secretNs]) reqA podNotReady
    (by decide) (by decide) (by decide) (by decide) (by decide)
  ⟨by decide, by decide, by decide, h.1, h.2.2.2.2.2.2.1, h.2.2.2.2.2.2.2⟩

theorem isPodReady_of_exists (pod : Pod)
    (h : ∃ c ∈ pod.Status.Conditions, c.CondType = "Ready" ∧ c.Status = "True") :
    isPodReady pod = true := by
  obtain ⟨c, hc, h1, h2⟩ := h
  unfold isPodReady
  rw [List.any_eq_true]
  exact ⟨c, hc, by simp [h1, h2, PodReady, ConditionTrue]⟩

/-- C7 (defect in the code): the pod `ns/pod-b` has a nil label map and a
container named `openbao`, so it is a target member; it is unmarked and ready,
and the world holds no secret, so the credential cannot be fetched.
`Reconcile` reads the pod and returns the empty result with the nil error,
where an error and a requeue after 30 seconds are due: `isOpenBAOPod` rejects
the pod at its nil check. -/
theorem C7_nil_labels_skip_unseal :
    (quietWorld [podNoLabels] []).lookupPod reqB = .ok podNoLabels ∧
    podNoLabels.Labels = none ∧
    IsTargetMember podNoLabels = true ∧
    isAlreadyUnsealed podNoLabels = false ∧
    (∃ c ∈ podNoLabels.Status.Conditions, c.CondType = "Ready" ∧ c.Status = "True") ∧
    (quietWorld [podNoLabels] []).lookupSecret ⟨"ns", "openbao-unseal-key"⟩
      = .error (.status .NotFound "secret not found") ∧
    isOpenBAOPod podNoLabels = false ∧
    runCalls (quietWorld [podNoLabels] []) reqB = [Call.getPod reqB (.ok podNoLabels)] ∧
    (Reconcile (quietWorld [podNoLabels] []) reqB).err = none ∧
    (Reconcile (quietWorld [podNoLabels] []) reqB).result = Result.empty ∧
    (Reconcile (quietWorld [podNoLabels] []) reqB).result.RequeueAfter ≠ 30 * Second := by
  decide

/-- Away from the nil label map the failures of the unsealing are reported: for
a pod that is a target member with a non-nil label map, unmarked and ready, if
the credential fetch fails (the secret read fails, or the secret lacks the
field `unseal-key`), or `findOpenBAOContainer` selects no container, or the
remote exec fails, then `Reconcile` returns a non-nil error and a result asking
for a requeue after 30 seconds, makes no Update and leaves the stored pods
alone; in the credential and container cases it makes no remote exec. -/
theorem unseal_failure_requeues (w : World) (req : Request) (pod : Pod)
    (hget : w.lookupPod req = .ok pod)
    (htm : IsTargetMember pod = true)
    (hl : pod.Labels ≠ none)
    (hm : isAlreadyUnsealed pod = false)
    (hr : ∃ c ∈ pod.Status.Conditions, c.CondType = "Ready" ∧ c.Status = "True")
    (hfail :
      ((∃ e, w.lookupSecret ⟨pod.Namespace, "openbao-unseal-key"⟩ = .error e) ∨
        (∃ s, w.lookupSecret ⟨pod.Namespace, "openbao-unseal-key"⟩ = .ok s ∧
          s.Data.get? "unseal-key" = none)) ∨
      findOpenBAOContainer pod = "" ∨
      (∃ s k e, w.lookupSecret ⟨pod.Namespace, "openbao-unseal-key"⟩ = .ok s ∧
        s.Data.get? "unseal-key" = some k ∧
        w.execResult ⟨pod.Namespace, pod.Name, findOpenBAOContainer pod, ["bao", "unseal", k]⟩
          = some e)) :
    (Reconcile w req).err ≠ none ∧
    (Reconcile w req).result.RequeueAfter = 30 * Second ∧
    (Reconcile w req).result.RequeueAfter = 30000000000 ∧
    updateCount (runCalls w req) = 0 ∧
    (Reconcile w req).world.pods = w.pods ∧
    ((((∃ e, w.lookupSecret ⟨pod.Namespace, "openbao-unseal-key"⟩ = .error e) ∨
        (∃ s, w.lookupSecret ⟨pod.Namespace, "openbao-unseal-key"⟩ = .ok s ∧
          s.Data.get? "unseal-key" = none)) ∨
      findOpenBAOContainer pod = "") → execCount (runCalls w req) = 0) := by
  have ht : isOpenBAOPod pod = true := by rw [isOpenBAOPod_of_labelled pod hl]; exact htm
  have hrd := isPodReady_of_exists pod hr
  cases hs : w.lookupSecret ⟨pod.Namespace, "openbao-unseal-key"⟩ with
  | error e =>
    have hrun := reconcile_secret_error w req pod e hget ht hm hrd hs
    have hcalls : runCalls w req = [Call.getPod req (.ok pod),
        Call.getSecret ⟨pod.Namespace, "openbao-unseal-key"⟩ (.error e)] := by
      unfold runCalls
      rw [hrun]
      exact callsBetween_append _ _ _ (by simp)
    refine ⟨?_, ?_, ?_, ?_, ?_, ?_⟩
    · rw [hrun]; simp
    · rw [hrun]; exact Nat.mul_comm _ _
    · rw [hrun]; rfl
    · rw [hcalls]; rfl
    · rw [hrun]; rfl
    · intro _; rw [hcalls]; rfl
  | ok s =>
    cases hk : s.Data.get? "unseal-key" with
    | none =>
      have hrun := reconcile_field_missing w req pod s hget ht hm hrd hs hk
      have hcalls : runCalls w req = [Call.getPod req (.ok pod),
          Call.getSecret ⟨pod.Namespace, "openbao-unseal-key"⟩ (.ok s)] := by
        unfold runCalls
        rw [hrun]
        exact callsBetween_append _ _ _ (by simp)
      refine ⟨?_, ?_, ?_, ?_, ?_, ?_⟩
      · rw [hrun]; simp
      · rw [hrun]; exact Nat.mul_comm _ _
      · rw [hrun]; rfl
      · rw [hcalls]; rfl
      · rw [hrun]; rfl
      · intro _; rw [hcalls]; rfl
    | some k =>
      by_cases hc : findOpenBAOContainer pod = ""
      · have hrun := reconcile_no_container w req pod s k hget ht hm hrd hs hk hc
        have hcalls : runCalls w req = [Call.getPod req (.ok pod),
            Call.getSecret ⟨pod.Namespace, "openbao-unseal-key"⟩ (.ok s)] := by
          unfold runCalls
          rw [hrun]
          exact callsBetween_append _ _ _ (by simp)
        refine ⟨?_, ?_, ?_, ?_, ?_, ?_⟩
        · rw [hrun]; simp
        · rw [hrun]; exact Nat.mul_comm _ _
        · rw [hrun]; rfl
        · rw [hcalls]; rfl
        · rw [hrun]; rfl
        · intro _; rw [hcalls]; rfl
      · have hx : ∃ e, w.execResult
            ⟨pod.Namespace, pod.Name, findOpenBAOContainer pod, ["bao", "unseal", k]⟩
              = some e := by
          rcases hfail with (⟨e, he⟩ | ⟨s2, hs2, hk2⟩) | hc2 | ⟨s2, k2, e, hs2, hk2, hx2⟩
          · rw [hs] at he; cases he
          · rw [hs] at hs2
            cases hs2
            rw [hk] at hk2; cases hk2
          · exact absurd hc2 hc
          · rw [hs] at hs2
            cases hs2
            rw [hk] at hk2
            cases hk2
            exact ⟨e, hx2⟩
        obtain ⟨e, hx⟩ := hx
        have hrun := reconcile_exec_error w req pod s k e hget ht hm hrd hs hk hc hx
        have hcalls : runCalls w req = [Call.getPod req (.ok pod),
            Call.getSecret ⟨pod.Namespace, "openbao-unseal-key"⟩ (.ok s),
            Call.exec ⟨pod.Namespace, pod.Name, findOpenBAOContainer pod, ["bao", "unseal", k]⟩
              (some e)] := by
          unfold runCalls
          rw [hrun]
          exact callsBetween_append _ _ _ (by simp)
        refine ⟨?_, ?_, ?_, ?_, ?_, ?_⟩
        · rw [hrun]; simp
        · rw [hrun]; exact Nat.mul_comm _ _
        · rw [hrun]; rfl
        · rw [hcalls]; rfl
        · rw [hrun]; rfl
        · rintro ((⟨e2, he⟩ | ⟨s2, hs2, hk2⟩) | hc2)
          · cases he
          · cases hs2
            rw [hk] at hk2; cases hk2
          · exact absurd hc2 hc

/-- The failure report at a concrete input: the labelled, ready pod `ns/pod-a`
in a world that holds no secret, so that the credential fetch fails with
NotFound. -/
theorem unseal_failure_requeues_example :
    (quietWorld [podA] []).lookupPod reqA = .ok podA ∧
    (quietWorld [podA] []).lookupSecret ⟨"ns", "openbao-unseal-key"⟩
      = .error (.status .NotFound "secret not found") ∧
    (Reconcile (quietWorld [podA] []) reqA).err ≠ none ∧
    (Reconcile (quietWorld [podA] []) reqA).result.RequeueAfter = 30000000000 ∧
    updateCount (runCalls (quietWorld [podA] []) reqA) = 0 ∧
    execCount (runCalls (quietWorld [podA] []) reqA) = 0 :=
  have h := unseal_failure_requeues (quietWorld [podA] []) reqA podA
    (by decide) (by decide) (by decide) (by decide) ⟨⟨"Ready", "True"⟩, by decide, rfl, rfl⟩
    (Or.inl (Or.inl ⟨.status .NotFound "secret not found", by decide⟩))
  ⟨by decide, by decide, h.1, h.2.2.1, h.2.2.2.1,
    h.2.2.2.2.2 (Or.inl (Or.inl ⟨.status .NotFound "secret not found", by decide⟩))⟩

/-! ## Lemmas on the object store -/

theorem update_trace (w : World) (pod : Pod) :
    (Update w pod).2.trace = w.trace ++ [Call.update pod (w.checkUpdate pod)] := rfl

theorem find?_map_replace (l : List Pod) (q : Pod → Bool) (r p : Pod) (hr : q r = true)
    (h : l.find? q = some p) :
    (l.map (fun x => if q x then r else x)).find? q = some r := by
  induction l with
  | nil => simp at h
  | cons a rest ih =>
    by_cases ha : q a = true
    · simp [List.find?, ha, hr]
    · have ha2 : q a = false := by simpa using ha
      simp only [List.find?, ha2] at h
      simp only [List.map, ha2, Bool.false_eq_true, if_false, List.find?]
      exact ih h

theorem lookupPod_key (w : World) (req : Request) (pod : Pod)
    (hget : w.lookupPod req = .ok pod) :
    pod.Namespace = req.Namespace ∧ pod.Name = req.Name := by
  unfold World.lookupPod at hget
  cases hf : w.podGetFault req with
  | some e => simp [hf] at hget
  | none =>
    simp only [hf] at hget
    cases hp : w.pods.find? (fun p => p.Namespace == req.Namespace && p.Name == req.Name) with
    | none => simp [hp] at hget
    | some p =>
      simp only [hp] at hget
      cases hget
      have := List.find?_some hp
      simpa using this

theorem update_ok_lookupPod (w : World) (req : Request) (pod pod2 : Pod)
    (hget : w.lookupPod req = .ok pod)
    (hns : pod2.Namespace = pod.Namespace) (hname : pod2.Name = pod.Name)
    (hu : w.checkUpdate pod2 = none) :
    (Update w pod2).2.lookupPod req = .ok pod2 := by
  obtain ⟨h1, h2⟩ := lookupPod_key w req pod hget
  unfold World.lookupPod at hget
  cases hf : w.podGetFault req with
  | some e => simp [hf] at hget
  | none =>
    simp only [hf] at hget
    cases hp : w.pods.find? (fun p => p.Namespace == req.Namespace && p.Name == req.Name) with
    | none => simp [hp] at hget
    | some p =>
      have hq : (fun p : Pod => p.Namespace == req.Namespace && p.Name == req.Name) pod2
          = true := by
        simp [hns, hname, h1, h2]
      have hrep := find?_map_replace w.pods
        (fun p => p.Namespace == req.Namespace && p.Name == req.Name) pod2 p hq hp
      have hkey : pod2.Namespace = req.Namespace ∧ pod2.Name = req.Name :=
        ⟨hns.trans h1, hname.trans h2⟩
      simp only [Update, hu, World.lookupPod, World.record, hf, hkey.1, hkey.2]
      rw [hrep]

theorem annotateUnsealed_marker (pod : Pod) (ts : String) :
    (annotateUnsealed pod ts).Annotations.get? UnsealedAnnotation = some ts := by
  simp [annotateUnsealed, GoMap.get?, lookup_mapSet_self]

theorem annotateUnsealed_other (pod : Pod) (ts k : String) (hk : k ≠ UnsealedAnnotation) :
    (annotateUnsealed pod ts).Annotations.get? k = pod.Annotations.get? k := by
  cases hA : pod.Annotations with
  | none =>
    simp only [annotateUnsealed, GoMap.get?, hA]
    rw [lookup_mapSet_ne _ _ _ _ hk]
    rfl
  | some a =>
    simp only [annotateUnsealed, GoMap.get?, hA]
    exact lookup_mapSet_ne _ _ _ _ hk

/-- The run that unseals: the four calls it makes, what it returns and what the
store answers afterwards. -/
theorem reconcile_success (w : World) (req : Request) (pod : Pod) (s : Secret) (k : String)
    (hget : w.lookupPod req = .ok pod) (ht : isOpenBAOPod pod = true)
    (hm : isAlreadyUnsealed pod = false) (hr : isPodReady pod = true)
    (hs : w.lookupSecret ⟨pod.Namespace, "openbao-unseal-key"⟩ = .ok s)
    (hk : s.Data.get? "unseal-key" = some k)
    (hc : findOpenBAOContainer pod ≠ "")
    (hx : w.execResult ⟨pod.Namespace, pod.Name, findOpenBAOContainer pod, ["bao", "unseal", k]⟩
      = none)
    (hu : w.checkUpdate (annotateUnsealed pod w.now) = none) :
    (Reconcile w req).result = Result.empty ∧
    (Reconcile w req).err = none ∧
    (Reconcile w req).world.trace = w.trace ++
      [Call.getPod req (.ok pod),
        Call.getSecret ⟨pod.Namespace, "openbao-unseal-key"⟩ (.ok s),
        Call.exec ⟨pod.Namespace, pod.Name, findOpenBAOContainer pod, ["bao", "unseal", k]⟩ none,
        Call.update (annotateUnsealed pod w.now) none] ∧
    (Reconcile w req).world.lookupPod req = .ok (annotateUnsealed pod w.now) := by
  have hrun := reconcile_exec_ok w req pod s k hget ht hm hr hs hk hc hx
  rw [hrun]
  refine ⟨rfl, hu, ?_, ?_⟩
  · show (Update _ _).2.trace = _
    rw [update_trace]
    simp [hu]
  · show (Update _ _).2.lookupPod req = _
    apply update_ok_lookupPod _ req pod
    · simpa using hget
    · rfl
    · rfl
    · simpa using hu

/-! ## The unsealing run -/

/-- C4 (as stated, refuted): the labelled, unmarked, ready pod `ns/pod-a` that
declares no container, in a world where the secret holds `unseal-key` and no
remote exec and no Update would fail, makes `Reconcile` return an error without
any remote exec and without any Update. -/
theorem C4_counterexample_no_container :
    (quietWorld [podNoContainers] [secretNs]).lookupPod reqA = .ok podNoContainers ∧
    IsTargetMember podNoContainers = true ∧
    isOpenBAOPod podNoContainers = true ∧
    isAlreadyUnsealed podNoContainers = false ∧
    (∃ c ∈ podNoContainers.Status.Conditions, c.CondType = "Ready" ∧ c.Status = "True") ∧
    (quietWorld [podNoContainers] [secretNs]).lookupSecret ⟨"ns", "openbao-unseal-key"⟩
      = .ok secretNs ∧
    secretNs.Data.get? "unseal-key" = some "abc123" ∧
    (∀ call, (quietWorld [podNoContainers] [secretNs]).execResult call = none) ∧
    (∀ p, (quietWorld [podNoContainers] [secretNs]).updateFault p = none) ∧
    execCount (runCalls (quietWorld [podNoContainers] [secretNs]) reqA) = 0 ∧
    updateCount (runCalls (quietWorld [podNoContainers] [secretNs]) reqA) = 0 ∧
    (Reconcile (quietWorld [podNoContainers] [secretNs]) reqA).err
      = some (.plain "no OpenBAO container found in pod") ∧
    (Reconcile (quietWorld [podNoContainers] [secretNs]) reqA).result ≠ Result.empty := by
  refine ⟨by decide, by decide, by decide, by decide, by decide, by decide, by decide,
    fun _ => rfl, fun _ => rfl, by decide, by decide, by decide, by decide⟩

/-- C4 (amended): for a pod that is a target member (it carries the label, or a
container of it is named `openbao` or `bao`) with a non-nil label map, that has
no marker and has a Ready condition with status True, when the secret
`openbao-unseal-key` of the pod's namespace holds `unseal-key` with value `k`,
`findOpenBAOContainer` selects a container (a non-empty name), and the remote
exec and the Update succeed, `Reconcile` makes exactly these calls in this
order: the read of the pod, the read of the secret, one remote exec with the
pod's namespace and name, the selected container and the command
`bao unseal k`, and one Update of the pod carrying the marker; afterwards the
store answers with the marked pod, and `Reconcile` returns the empty result
with no error. -/
theorem C4_unseal_then_mark (w : World) (req : Request) (pod : Pod) (s : Secret) (k : String)
    (hget : w.lookupPod req = .ok pod)
    (htm : IsTargetMember pod = true)
    (hl : pod.Labels ≠ none)
    (hm : isAlreadyUnsealed pod = false)
    (hr : ∃ c ∈ pod.Status.Conditions, c.CondType = "Ready" ∧ c.Status = "True")
    (hs : w.lookupSecret ⟨pod.Namespace, "openbao-unseal-key"⟩ = .ok s)
    (hk : s.Data.get? "unseal-key" = some k)
    (hc : findOpenBAOContainer pod ≠ "")
    (hx : w.execResult ⟨pod.Namespace, pod.Name, findOpenBAOContainer pod, ["bao", "unseal", k]⟩
      = none)
    (hu : w.checkUpdate (annotateUnsealed pod w.now) = none) :
    runCalls w req =
      [Call.getPod req (.ok pod),
        Call.getSecret ⟨pod.Namespace, "openbao-unseal-key"⟩ (.ok s),
        Call.exec ⟨pod.Namespace, pod.Name, findOpenBAOContainer pod, ["bao", "unseal", k]⟩ none,
        Call.update (annotateUnsealed pod w.now) none] ∧
    execCount (runCalls w req) = 1 ∧
    updateCount (runCalls w req) = 1 ∧
    (annotateUnsealed pod w.now).Annotations.get? UnsealedAnnotation = some w.now ∧
    (Reconcile w req).world.lookupPod req = .ok (annotateUnsealed pod w.now) ∧
    (Reconcile w req).result = Result.empty ∧
    (Reconcile w req).err = none := by
  have ht : isOpenBAOPod pod = true := by rw [isOpenBAOPod_of_labelled pod hl]; exact htm
  have hrd := isPodReady_of_exists pod hr
  obtain ⟨h1, h2, h3, h4⟩ := reconcile_success w req pod s k hget ht hm hrd hs hk hc hx hu
  have hcalls := callsBetween_append w (Reconcile w req).world _ h3
  refine ⟨hcalls, ?_, ?_, annotateUnsealed_marker pod w.now, h4, h1, h2⟩
  · unfold runCalls; rw [hcalls]; rfl
  · unfold runCalls; rw [hcalls]; rfl

/-- C4 (amended) at the input named by the claim: `ns/pod-a` with one container
`openbao` and the key `abc123`. -/
theorem C4_unseal_then_mark_witness :
    runCalls (quietWorld [podA] [secretNs]) reqA =
      [Call.getPod reqA (.ok podA),
        Call.getSecret ⟨"ns", "openbao-unseal-key"⟩ (.ok secretNs),
        Call.exec ⟨"ns", "pod-a", "openbao", ["bao", "unseal", "abc123"]⟩ none,
        Call.update (annotateUnsealed podA "2024-01-01T00:00:00Z") none] ∧
    (Reconcile (quietWorld [podA] [secretNs]) reqA).world.lookupPod reqA
      = .ok (annotateUnsealed podA "2024-01-01T00:00:00Z") ∧
    (Reconcile (quietWorld [podA] [secretNs]) reqA).result = Result.empty ∧
    (Reconcile (quietWorld [podA] [secretNs]) reqA).err = none :=
  have h := C4_unseal_then_mark (quietWorld [podA] [secretNs]) reqA podA secretNs "abc123"
    (by decide) (by decide) (by decide) (by decide) ⟨⟨"Ready", "True"⟩, by decide, rfl, rfl⟩
    (by decide) (by decide) (by decide) (by decide) (by decide)
  ⟨h.1, h.2.2.2.2.1, h.2.2.2.2.2.1, h.2.2.2.2.2.2⟩

/-- C2 (as stated, refuted): for the labelled, unmarked, ready pod `ns/pod-a`
that declares no container, with the credential available and no remote exec
and no Update failing, two runs of `Reconcile` in sequence make no remote exec
at all, and both return an error. -/
theorem C2_counterexample_no_container :
    (quietWorld [podNoContainers] [secretNs]).lookupPod reqA = .ok podNoContainers ∧
    IsTargetMember podNoContainers = true ∧
    isOpenBAOPod podNoContainers = true ∧
    isAlreadyUnsealed podNoContainers = false ∧
    isPodReady podNoContainers = true ∧
    (getUnsealKey (quietWorld [podNoContainers] [secretNs]) "ns").1 = .ok "abc123" ∧
    (∀ call, (quietWorld [podNoContainers] [secretNs]).execResult call = none) ∧
    (∀ p, (quietWorld [podNoContainers] [secretNs]).updateFault p = none) ∧
    execCount (callsBetween (quietWorld [podNoContainers] [secretNs])
      (Reconcile (Reconcile (quietWorld [podNoContainers] [secretNs]) reqA).world reqA).world)
      = 0 ∧
    (Reconcile (quietWorld [podNoContainers] [secretNs]) reqA).err ≠ none ∧
    (Reconcile (Reconcile (quietWorld [podNoContainers] [secretNs]) reqA).world reqA).err
      ≠ none := by
  refine ⟨by decide, by decide, by decide, by decide, by decide, by decide,
    fun _ => rfl, fun _ => rfl, by decide, by decide, by decide⟩

/-- C2 (amended): for a pod that is a target member (it carries the label, or a
container of it is named `openbao` or `bao`) with a non-nil label map, ready
and unmarked, with the credential available, with `findOpenBAOContainer`
selecting a container (a non-empty name) and with the remote exec and the
Update succeeding, two runs of `Reconcile` in sequence for the pod's key, the
second starting from the world left by the first, make exactly one remote exec
in total: the first run makes one, and the second run only reads the marked pod
and returns the empty result with no error, making no remote exec and no
Update. -/
theorem C2_second_run_is_noop (w : World) (req : Request) (pod : Pod) (s : Secret) (k : String)
    (hget : w.lookupPod req = .ok pod)
    (htm : IsTargetMember pod = true)
    (hl : pod.Labels ≠ none)
    (hm : isAlreadyUnsealed pod = false)
    (hr : isPodReady pod = true)
    (hs : w.lookupSecret ⟨pod.Namespace, "openbao-unseal-key"⟩ = .ok s)
    (hk : s.Data.get? "unseal-key" = some k)
    (hc : findOpenBAOContainer pod ≠ "")
    (hx : w.execResult ⟨pod.Namespace, pod.Name, findOpenBAOContainer pod, ["bao", "unseal", k]⟩
      = none)
    (hu : w.checkUpdate (annotateUnsealed pod w.now) = none) :
    execCount (runCalls w req) = 1 ∧
    runCalls (Reconcile w req).world req
      = [Call.getPod req (.ok (annotateUnsealed pod w.now))] ∧
    execCount (runCalls (Reconcile w req).world req) = 0 ∧
    updateCount (runCalls (Reconcile w req).world req) = 0 ∧
    execCount (callsBetween w (Reconcile (Reconcile w req).world req).world) = 1 ∧
    (Reconcile (Reconcile w req).world req).result = Result.empty ∧
    (Reconcile (Reconcile w req).world req).err = none := by
  have ht : isOpenBAOPod pod = true := by rw [isOpenBAOPod_of_labelled pod hl]; exact htm
  obtain ⟨_, _, h3, h4⟩ := reconcile_success w req pod s k hget ht hm hr hs hk hc hx hu
  have hcalls := callsBetween_append w (Reconcile w req).world _ h3
  have hmark : isAlreadyUnsealed (annotateUnsealed pod w.now) = true :=
    isAlreadyUnsealed_of_get _ _ (annotateUnsealed_marker pod w.now)
  have hrun2 := reconcile_marked (Reconcile w req).world req _ h4 hmark
  have hcalls2 : runCalls (Reconcile w req).world req
      = [Call.getPod req (.ok (annotateUnsealed pod w.now))] := by
    unfold runCalls
    rw [hrun2]
    exact callsBetween_append _ _ _ rfl
  refine ⟨?_, hcalls2, ?_, ?_, ?_, ?_, ?_⟩
  · unfold runCalls; rw [hcalls]; rfl
  · rw [hcalls2]; rfl
  · rw [hcalls2]; rfl
  · have htr : (Reconcile (Reconcile w req).world req).world.trace = w.trace ++
        [Call.getPod req (.ok pod),
          Call.getSecret ⟨pod.Namespace, "openbao-unseal-key"⟩ (.ok s),
          Call.exec ⟨pod.Namespace, pod.Name, findOpenBAOContainer pod, ["bao", "unseal", k]⟩
            none,
          Call.update (annotateUnsealed pod w.now) none,
          Call.getPod req (.ok (annotateUnsealed pod w.now))] := by
      rw [hrun2]
      simp [h3]
    rw [callsBetween_append w _ _ htr]
    rfl
  · rw [hrun2]
  · rw [hrun2]

/-- C2 (amended) at a concrete input: `ns/pod-a` with one container `openbao`. -/
theorem C2_second_run_is_noop_witness :
    execCount (runCalls (quietWorld [podA] [secretNs]) reqA) = 1 ∧
    execCount (runCalls (Reconcile (quietWorld [podA] [secretNs]) reqA).world reqA) = 0 ∧
    execCount (callsBetween (quietWorld [podA] [secretNs])
      (Reconcile (Reconcile (quietWorld [podA] [secretNs]) reqA).world reqA).world) = 1 ∧
    (Reconcile (Reconcile (quietWorld [podA] [secretNs]) reqA).world reqA).err = none :=
  have h := C2_second_run_is_noop (quietWorld [podA] [secretNs]) reqA podA secretNs "abc123"
    (by decide) (by decide) (by decide) (by decide) (by decide)
    (by decide) (by decide) (by decide) (by decide) (by decide)
  ⟨h.1, h.2.2.1, h.2.2.2.2.1, h.2.2.2.2.2.2⟩

/-! ## The shape of an arbitrary run -/

/-- Every run of `Reconcile` has one of five shapes: the read of the pod fails;
the run stops after reading the pod; the run stops after reading the secret;
the remote exec fails; or the run reaches the Update of the marked pod. -/
theorem run_shape (w : World) (req : Request) :
    (∃ e, w.lookupPod req = .error e ∧
      runCalls w req = [Call.getPod req (.error e)] ∧
      (Reconcile w req).err = IgnoreNotFound e ∧
      (Reconcile w req).result = Result.empty) ∨
    (∃ pod, w.lookupPod req = .ok pod ∧
      runCalls w req = [Call.getPod req (.ok pod)]) ∨
    (∃ pod key res e, w.lookupPod req = .ok pod ∧
      runCalls w req = [Call.getPod req (.ok pod), Call.getSecret key res] ∧
      (Reconcile w req).err = some e) ∨
    (∃ pod key s call e e2, w.lookupPod req = .ok pod ∧
      (s.Data.get? "unseal-key").isNone = false ∧
      runCalls w req = [Call.getPod req (.ok pod), Call.getSecret key (.ok s),
        Call.exec call (some e)] ∧
      (Reconcile w req).err = some e2) ∨
    (∃ pod key s call, w.lookupPod req = .ok pod ∧
      (s.Data.get? "unseal-key").isNone = false ∧
      runCalls w req = [Call.getPod req (.ok pod), Call.getSecret key (.ok s),
        Call.exec call none,
        Call.update (annotateUnsealed pod w.now)
          (w.checkUpdate (annotateUnsealed pod w.now))] ∧
      (Reconcile w req).err = w.checkUpdate (annotateUnsealed pod w.now) ∧
      (Reconcile w req).result = Result.empty) := by
  cases hget : w.lookupPod req with
  | error e =>
    left
    have hrun := reconcile_get_error w req e hget
    refine ⟨e, rfl, ?_, ?_, ?_⟩
    · unfold runCalls; rw [hrun]; exact callsBetween_append _ _ _ rfl
    · rw [hrun]
    · rw [hrun]
  | ok pod =>
    right
    have stop : ∀ o : Outcome, Reconcile w req = o →
        o.world = w.record (.getPod req (.ok pod)) →
        runCalls w req = [Call.getPod req (.ok pod)] := by
      intro o ho hw
      unfold runCalls
      rw [ho, hw]
      exact callsBetween_append _ _ _ rfl
    cases ht : isOpenBAOPod pod with
    | false => exact Or.inl ⟨pod, rfl, stop _ (reconcile_not_target w req pod hget ht) rfl⟩
    | true =>
      cases hm : isAlreadyUnsealed pod with
      | true => exact Or.inl ⟨pod, rfl, stop _ (reconcile_marked w req pod hget hm) rfl⟩
      | false =>
        cases hr : isPodReady pod with
        | false =>
          exact Or.inl ⟨pod, rfl, stop _ (reconcile_not_ready w req pod hget ht hm hr) rfl⟩
        | true =>
          right
          cases hs : w.lookupSecret ⟨pod.Namespace, "openbao-unseal-key"⟩ with
          | error e =>
            left
            have hrun := reconcile_secret_error w req pod e hget ht hm hr hs
            refine ⟨pod, (⟨pod.Namespace, "openbao-unseal-key"⟩ : NamespacedName), .error e,
              .wrap "failed to get unseal key" e, rfl, ?_, ?_⟩
            · unfold runCalls; rw [hrun]; exact callsBetween_append _ _ _ (by simp)
            · rw [hrun]
          | ok s =>
            cases hk : s.Data.get? "unseal-key" with
            | none =>
              left
              have hrun := reconcile_field_missing w req pod s hget ht hm hr hs hk
              refine ⟨pod, (⟨pod.Namespace, "openbao-unseal-key"⟩ : NamespacedName), .ok s,
                .wrap "failed to get unseal key" (.plain "unseal-key not found in secret"),
                rfl, ?_, ?_⟩
              · unfold runCalls; rw [hrun]; exact callsBetween_append _ _ _ (by simp)
              · rw [hrun]
            | some k =>
              by_cases hc : findOpenBAOContainer pod = ""
              · left
                have hrun := reconcile_no_container w req pod s k hget ht hm hr hs hk hc
                refine ⟨pod, (⟨pod.Namespace, "openbao-unseal-key"⟩ : NamespacedName), .ok s,
                  .plain "no OpenBAO container found in pod", rfl, ?_, ?_⟩
                · unfold runCalls; rw [hrun]; exact callsBetween_append _ _ _ (by simp)
                · rw [hrun]
              · right
                cases hx : w.execResult
                    ⟨pod.Namespace, pod.Name, findOpenBAOContainer pod, ["bao", "unseal", k]⟩ with
                | some e =>
                  left
                  have hrun := reconcile_exec_error w req pod s k e hget ht hm hr hs hk hc hx
                  refine ⟨pod, (⟨pod.Namespace, "openbao-unseal-key"⟩ : NamespacedName), s,
                    (⟨pod.Namespace, pod.Name, findOpenBAOContainer pod, ["bao", "unseal", k]⟩ : ExecCall),
                    e, .wrap "failed to execute unseal command" e, rfl, by simp [hk], ?_, ?_⟩
                  · unfold runCalls; rw [hrun]; exact callsBetween_append _ _ _ (by simp)
                  · rw [hrun]
                | none =>
                  right
                  have hrun := reconcile_exec_ok w req pod s k hget ht hm hr hs hk hc hx
                  refine ⟨pod, (⟨pod.Namespace, "openbao-unseal-key"⟩ : NamespacedName), s,
                    (⟨pod.Namespace, pod.Name, findOpenBAOContainer pod, ["bao", "unseal", k]⟩ : ExecCall),
                    rfl, by simp [hk], ?_, ?_, ?_⟩
                  · unfold runCalls
                    rw [hrun]
                    apply callsBetween_append
                    show (Update _ _).2.trace = _
                    rw [update_trace]
                    simp
                  · rw [hrun]
                  · rw [hrun]

/-! ## Error propagation and frame -/

/-- C8 (as stated, refuted): in a world that stores no pod, the read of
`ns/pod-a` fails with NotFound, yet `Reconcile` returns the nil error. -/
theorem C8_counterexample_not_found :
    runCalls (quietWorld [] []) reqA
      = [Call.getPod reqA (.error (.status .NotFound "pod not found"))] ∧
    (Call.getPod reqA (.error (.status .NotFound "pod not found"))).failed = true ∧
    (Reconcile (quietWorld [] []) reqA).err = none := by
  decide

/-- C8 (amended): for every run of `Reconcile` and every collaborator call of
that run that failed (the read of the pod, the read of the secret or a secret
without the field `unseal-key`, the remote exec, the Update, whatever the
error): unless the call is the read of the pod failing with NotFound,
`Reconcile` returns a non-nil error; when it is the read of the pod failing
with NotFound, `Reconcile` returns the nil error and the empty result; when it
is the Update, the returned result is the empty one, with no requeue delay. -/
theorem C8_failures_are_returned (w : World) (req : Request) (c : Call)
    (hc : c ∈ runCalls w req) (hf : c.failed = true) :
    (c.isPodNotFound = false → (Reconcile w req).err ≠ none) ∧
    (c.isPodNotFound = true →
      (Reconcile w req).err = none ∧ (Reconcile w req).result = Result.empty) ∧
    (c.isUpdate = true →
      (Reconcile w req).result = Result.empty ∧ (Reconcile w req).result.RequeueAfter = 0) := by
  rcases run_shape w req with ⟨e, _, hcalls, herr, hres⟩ | ⟨pod, _, hcalls⟩ |
    ⟨pod, key, res, e, _, hcalls, herr⟩ | ⟨pod, key, s, call, e, e2, _, hfield, hcalls, herr⟩ |
    ⟨pod, key, s, call, _, hfield, hcalls, herr, hres⟩
  · rw [hcalls, List.mem_singleton] at hc
    subst hc
    refine ⟨?_, ?_, ?_⟩
    · intro hnf
      have hnf2 : IsNotFound e = false := hnf
      rw [herr]
      simp [IgnoreNotFound, hnf2]
    · intro hnf
      have hnf2 : IsNotFound e = true := hnf
      rw [herr, hres]
      simp [IgnoreNotFound, hnf2]
    · intro hu
      simp [Call.isUpdate] at hu
  · rw [hcalls, List.mem_singleton] at hc
    subst hc
    simp [Call.failed] at hf
  · have hnu : c.isPodNotFound = false ∧ c.isUpdate = false := by
      rw [hcalls] at hc
      simp only [List.mem_cons, List.mem_singleton, List.mem_nil_iff, or_false] at hc
      rcases hc with h | h <;> subst h <;> exact ⟨rfl, rfl⟩
    refine ⟨?_, ?_, ?_⟩
    · intro _; rw [herr]; simp
    · intro h; rw [hnu.1] at h; cases h
    · intro h; rw [hnu.2] at h; cases h
  · have hnu : c.isPodNotFound = false ∧ c.isUpdate = false := by
      rw [hcalls] at hc
      simp only [List.mem_cons, List.mem_singleton, List.mem_nil_iff, or_false] at hc
      rcases hc with h | h | h <;> subst h <;> exact ⟨rfl, rfl⟩
    refine ⟨?_, ?_, ?_⟩
    · intro _; rw [herr]; simp
    · intro h; rw [hnu.1] at h; cases h
    · intro h; rw [hnu.2] at h; cases h
  · rw [hcalls] at hc
    simp only [List.mem_cons, List.mem_singleton, List.mem_nil_iff, or_false] at hc
    rcases hc with h | h | h | h
    · subst h; simp [Call.failed] at hf
    · subst h; simp [Call.failed, hfield] at hf
    · subst h; simp [Call.failed] at hf
    · subst h
      have hsome : (w.checkUpdate (annotateUnsealed pod w.now)).isSome = true := hf
      refine ⟨?_, ?_, ?_⟩
      · intro _
        rw [herr]
        intro hnone
        rw [hnone] at hsome
        cases hsome
      · intro h; cases h
      · intro _; rw [hres]; exact ⟨rfl, rfl⟩

/-- C8 (amended) at a concrete input: the Update of `ns/pod-a` is answered with
a Conflict. -/
theorem C8_failures_are_returned_witness :
    Call.update (annotateUnsealed podA "2024-01-01T00:00:00Z")
        (some (.status .Conflict "the object has been modified"))
      ∈ runCalls conflictWorld reqA ∧
    (Reconcile conflictWorld reqA).err ≠ none ∧
    (Reconcile conflictWorld reqA).result.RequeueAfter = 0 :=
  have h := C8_failures_are_returned conflictWorld reqA
    (Call.update (annotateUnsealed podA "2024-01-01T00:00:00Z")
      (some (.status .Conflict "the object has been modified")))
    (by decide) (by decide)
  ⟨by decide, h.1 (by decide), (h.2.2 (by decide)).2⟩

/-- C9: every pod handed to the Update during a run of `Reconcile` is the pod
read at the start of the run with only its annotation map changed: namespace,
name, labels, container specs and status conditions are equal, the annotation
maps agree on every key other than `openbao.io/unsealed`, and that key is set. -/
theorem C9_update_only_touches_annotations (w : World) (req : Request) (p : Pod)
    (res : Option Err) (h : Call.update p res ∈ runCalls w req) :
    ∃ pod, w.lookupPod req = .ok pod ∧
      (runCalls w req).head? = some (Call.getPod req (.ok pod)) ∧
      p.Namespace = pod.Namespace ∧
      p.Name = pod.Name ∧
      p.Labels = pod.Labels ∧
      p.Spec = pod.Spec ∧
      p.Status = pod.Status ∧
      (∀ k, k ≠ UnsealedAnnotation → p.Annotations.get? k = pod.Annotations.get? k) ∧
      (p.Annotations.get? UnsealedAnnotation).isSome = true := by
  rcases run_shape w req with ⟨e, _, hcalls, _, _⟩ | ⟨pod, _, hcalls⟩ |
    ⟨pod, key, r, e, _, hcalls, _⟩ | ⟨pod, key, s, call, e, e2, _, _, hcalls, _⟩ |
    ⟨pod, key, s, call, hget, _, hcalls, _, _⟩
  · rw [hcalls] at h; simp at h
  · rw [hcalls] at h; simp at h
  · rw [hcalls] at h; simp at h
  · rw [hcalls] at h; simp at h
  · rw [hcalls] at h
    simp only [List.mem_cons, List.mem_singleton, List.mem_nil_iff, or_false] at h
    rcases h with h | h | h | h
    · cases h
    · cases h
    · cases h
    · injection h with hp _
      subst hp
      refine ⟨pod, hget, ?_, rfl, rfl, rfl, rfl, rfl, ?_, ?_⟩
      · rw [hcalls]; rfl
      · intro k hk
        exact annotateUnsealed_other pod w.now k hk
      · rw [annotateUnsealed_marker]; rfl

/-- C9 at a concrete input: `ns/pod-a` carrying the annotation `team=storage`
keeps it in the pod handed to the Update. -/
theorem C9_update_only_touches_annotations_witness :
    Call.update (annotateUnsealed podAnnotated "2024-01-01T00:00:00Z") none
      ∈ runCalls (quietWorld [podAnnotated] [secretNs]) reqA ∧
    (annotateUnsealed podAnnotated "2024-01-01T00:00:00Z").Annotations.get? "team"
      = some "storage" ∧
    ∃ pod, (quietWorld [podAnnotated] [secretNs]).lookupPod reqA = .ok pod ∧
      (runCalls (quietWorld [podAnnotated] [secretNs]) reqA).head?
        = some (Call.getPod reqA (.ok pod)) ∧
      (annotateUnsealed podAnnotated "2024-01-01T00:00:00Z").Namespace = pod.Namespace ∧
      (annotateUnsealed podAnnotated "2024-01-01T00:00:00Z").Name = pod.Name ∧
      (annotateUnsealed podAnnotated "2024-01-01T00:00:00Z").Labels = pod.Labels ∧
      (annotateUnsealed podAnnotated "2024-01-01T00:00:00Z").Spec = pod.Spec ∧
      (annotateUnsealed podAnnotated "2024-01-01T00:00:00Z").Status = pod.Status ∧
      (∀ k, k ≠ UnsealedAnnotation →
        (annotateUnsealed podAnnotated "2024-01-01T00:00:00Z").Annotations.get? k
          = pod.Annotations.get? k) ∧
      ((annotateUnsealed podAnnotated "2024-01-01T00:00:00Z").Annotations.get?
        UnsealedAnnotation).isSome = true :=
  ⟨by decide, by decide,
    C9_update_only_touches_annotations (quietWorld [podAnnotated] [secretNs]) reqA
      (annotateUnsealed podAnnotated "2024-01-01T00:00:00Z") none (by decide)⟩

/-! ## The event filter -/

/-- C10: the filter admits a create event exactly when its pod satisfies
`isOpenBAOPod`, admits an update event exactly when its new pod satisfies
`isOpenBAOPod` and not `isAlreadyUnsealed`, and admits no delete event; and a
run of `Reconcile` that reads a pod whose create or update event the filter
discards takes no action: no remote exec, no Update, no requeue, no error. -/
theorem C10_filter_agrees_with_reconcile (ce : CreateEvent) (ue : UpdateEvent)
    (de : DeleteEvent) (p q : Pod) (w1 w2 : World) (req1 req2 : Request)
    (hce : ce.Object = .pod p) (hue : ue.ObjectNew = .pod q) :
    (CreateFunc ce = true ↔ isOpenBAOPod p = true) ∧
    (UpdateFunc ue = true ↔ (isOpenBAOPod q = true ∧ isAlreadyUnsealed q = false)) ∧
    DeleteFunc de = false ∧
    (CreateFunc ce = false → w1.lookupPod req1 = .ok p → TakesNoAction w1 req1) ∧
    (UpdateFunc ue = false → w2.lookupPod req2 = .ok q → TakesNoAction w2 req2) := by
  have hC : CreateFunc ce = isOpenBAOPod p := by simp [CreateFunc, hce]
  have hU : UpdateFunc ue = (isOpenBAOPod q && !isAlreadyUnsealed q) := by
    simp [UpdateFunc, hue]
  have noAction : ∀ (w : World) (req : Request) (pod : Pod),
      Reconcile w req = ⟨Result.empty, none, w.record (.getPod req (.ok pod))⟩ →
      TakesNoAction w req := by
    intro w req pod hrun
    have hcalls : runCalls w req = [Call.getPod req (.ok pod)] := by
      unfold runCalls
      rw [hrun]
      exact callsBetween_append _ _ _ rfl
    refine ⟨?_, ?_, ?_, ?_, ?_⟩
    · rw [hcalls]; rfl
    · rw [hcalls]; rfl
    · rw [hrun]; rfl
    · rw [hrun]
    · rw [hrun]
  refine ⟨?_, ?_, rfl, ?_, ?_⟩
  · rw [hC]
  · rw [hU]; simp
  · intro hdis hget
    rw [hC] at hdis
    exact noAction w1 req1 p (reconcile_not_target w1 req1 p hget hdis)
  · intro hdis hget
    rw [hU] at hdis
    cases ht : isOpenBAOPod q with
    | false => exact noAction w2 req2 q (reconcile_not_target w2 req2 q hget ht)
    | true =>
      have hm : isAlreadyUnsealed q = true := by
        rw [ht] at hdis
        simpa using hdis
      exact noAction w2 req2 q (reconcile_marked w2 req2 q hget hm)

/-- C10 at a concrete input: a create event for a pod that is no target member
and an update event whose new pod already carries the marker are both
discarded, and `Reconcile` takes no action on either pod. -/
theorem C10_filter_agrees_with_reconcile_witness :
    CreateFunc ⟨.pod podSidecarOnly⟩ = false ∧
    UpdateFunc ⟨.pod podA, .pod podMarked⟩ = false ∧
    TakesNoAction (quietWorld [podSidecarOnly] [secretNs]) ⟨"ns", "pod-g"⟩ ∧
    TakesNoAction (quietWorld [podMarked] [secretNs]) reqA :=
  have h := C10_filter_agrees_with_reconcile ⟨.pod podSidecarOnly⟩ ⟨.pod podA, .pod podMarked⟩
    ⟨.other⟩ podSidecarOnly podMarked (quietWorld [podSidecarOnly] [secretNs])
    (quietWorld [podMarked] [secretNs]) ⟨"ns", "pod-g"⟩ reqA rfl rfl
  ⟨by decide, by decide, h.2.2.2.1 (by decide) (by decide), h.2.2.2.2 (by decide) (by decide)⟩

end OpenBAO
